import Mathlib

/-!
# Verification of the zeroproof-travel-poc attestation subsystem

Shallow embedding of the zero-knowledge attestation subsystem of the
`moneta/zeroproof-travel-poc` repository, and proofs about it.

Embedded components (each definition is annotated with the source file and
function it translates):

* the shared serialization protocol (`zk-protocol/src/lib.rs`);
* the on-chain verifier client (`agent-a/mcp-server/src/lib.rs`,
  `verify_on_chain`);
* the TAP signature module (`agent-a/mcp-client/src/tap_signature.rs`);
* the attester service: program registry, proving-key cache and attestation
  engine (`zk-attestation-service/attester/src/main.rs`);
* the deterministic compute module (`agent-b/pricing-core/src/*.rs`).

Modelling conventions:

* Rust byte vectors (`Vec<u8>`, `&[u8]`) are `List Nat`, each element
  implicitly or by hypothesis `< 256`; machine arithmetic that can wrap is
  made explicit with `% 2 ^ w`.
* External effects are passed as explicit values: the system clock and the
  random nonce are arguments, the SP1 prover SDK is a record of functions,
  the outcome of an HTTP round-trip is an `Except` value supplied by the
  caller.
* Rust panics (`expect`, `unwrap` on fallible operations) and `?`
  propagation are both rendered as `Except String`: either way the function
  fails hard rather than producing a value.
-/

/-- A model of `serde_json::Value`.  Numbers are modelled as integers
(`serde_json`'s integer variants); the programs embedded here construct and
inspect only integer numbers. -/
inductive Json where
  | null : Json
  | bool (b : Bool) : Json
  | num (n : Int) : Json
  | str (s : String) : Json
  | arr (elems : List Json) : Json
  | obj (fields : List (String × Json)) : Json

/-- `serde_json::Value::as_u64`: `Some` exactly for integer numbers
representable in `u64`. -/
def Json.as_u64 : Json → Option Nat
  | .num n => if 0 ≤ n ∧ n < 2 ^ 64 then some n.toNat else none
  | _ => none

/-- `serde_json::Value::as_str`: `Some` exactly for strings. -/
def Json.as_str : Json → Option String
  | .str s => some s
  | _ => none

/-! ## Serialization protocol — `zk-protocol/src/lib.rs` -/

/-- `zk_protocol::bytes_to_json_array` (zk-protocol/src/lib.rs:62-65):
`Value::Array(bytes.iter().map(|b| Value::Number((*b).into())).collect())`. -/
def bytes_to_json_array (bytes : List Nat) : Json :=
  Json.arr (bytes.map fun b : Nat => Json.num (b : Int))

/-- The closure `|v| v.as_u64().map(|n| n as u8)` of
`zk_protocol::json_array_to_bytes`; the `as u8` cast is `% 256`. -/
def as_u8_of (v : Json) : Option Nat :=
  (Json.as_u64 v).map (· % 256)

/-- `zk_protocol::json_array_to_bytes` (zk-protocol/src/lib.rs:68-73):
on an array, `arr.iter().filter_map(|v| v.as_u64().map(|n| n as u8))`;
on anything else, `None`. -/
def json_array_to_bytes (value : Json) : Option (List Nat) :=
  match value with
  | .arr arr => some (arr.filterMap as_u8_of)
  | _ => none

/-! ## Hex encoding/decoding (the `hex` crate, as used by the sources) -/

/-- Value of one hex digit, `None` for a non-hex character
(`hex::decode` rejects such input). -/
def hexDigitVal (c : Char) : Option Nat :=
  if '0' ≤ c ∧ c ≤ '9' then some (c.toNat - '0'.toNat)
  else if 'a' ≤ c ∧ c ≤ 'f' then some (c.toNat - 'a'.toNat + 10)
  else if 'A' ≤ c ∧ c ≤ 'F' then some (c.toNat - 'A'.toNat + 10)
  else none

/-- `hex::decode` on a list of characters: consumes pairs of hex digits;
fails on an odd-length input or a non-hex character. -/
def hexDecodeChars : List Char → Option (List Nat)
  | [] => some []
  | [_] => none
  | c₁ :: c₂ :: rest => do
    let hi ← hexDigitVal c₁
    let lo ← hexDigitVal c₂
    let tail ← hexDecodeChars rest
    pure ((hi * 16 + lo) :: tail)

/-- `hex::decode` on a string. -/
def hexDecode (s : String) : Option (List Nat) :=
  hexDecodeChars s.data

/-- Lower-case hex digit for a value `< 16`. -/
def hexDigitChar (n : Nat) : Char :=
  if n < 10 then Char.ofNat ('0'.toNat + n)
  else Char.ofNat ('a'.toNat + (n - 10))

/-- `hex::encode`: two lower-case hex digits per byte. -/
def hexEncode (bytes : List Nat) : String :=
  String.mk (bytes.flatMap fun b => [hexDigitChar (b / 16 % 16), hexDigitChar (b % 16)])

/-- Rust `s.strip_prefix("0x").unwrap_or(s)`: remove a leading `"0x"` if
present, otherwise return the string unchanged. -/
def dropHexMark (s : String) : String :=
  match s.data with
  | '0' :: 'x' :: rest => String.mk rest
  | _ => s

/-! ## On-Chain Verifier Client — `agent-a/mcp-server/src/lib.rs` -/

/-- The decoded JSON-RPC response body: the optional `error` field and the
optional `result` field of the envelope. -/
structure RpcResponse where
  error : Option Json
  result : Option Json

/-- Outcome of the HTTP round-trip in `verify_on_chain`
(`client.post(rpc_url).json(&payload).send().await?.json().await?`):
either a transport-level error (unreachable node, non-JSON body), which the
`?` operator propagates as a hard error, or a decoded `RpcResponse`. -/
abbrev RpcOutcome := Except String RpcResponse

/-- `verify_on_chain` (agent-a/mcp-server/src/lib.rs:78-169), with the ABI
call construction elided (it does not influence the returned value) and the
HTTP round-trip abstracted as its outcome `rpc`.

Decodes the three hex arguments (each `?` propagating failure), checks the
VK hash is exactly 32 bytes, then interprets the JSON-RPC response:
an `error` field present → `Ok(false)`; otherwise a string `result`
present → `Ok(true)`; otherwise (unexpected envelope) → `Ok(false)`. -/
def verify_on_chain (proof_hex public_values_hex vk_hash : String)
    (rpc : Except String RpcResponse) : Except String Bool := do
  let _proof_bytes ← match hexDecode (dropHexMark proof_hex) with
    | some b => Except.ok b
    | none => Except.error "hex decode failed"
  let _public_values_bytes ← match hexDecode (dropHexMark public_values_hex) with
    | some b => Except.ok b
    | none => Except.error "hex decode failed"
  let vk_hash_bytes ← match hexDecode (dropHexMark vk_hash) with
    | some b => Except.ok b
    | none => Except.error "hex decode failed"
  if vk_hash_bytes.length ≠ 32 then
    Except.error ("VK hash must be 32 bytes, got " ++ toString vk_hash_bytes.length)
  else do
    let response ← rpc
    match response.error with
    | some _ => Except.ok false
    | none =>
      match response.result.bind Json.as_str with
      | some _ => Except.ok true
      | none => Except.ok false

/-- A 64-character all-zero hex string: a well-formed 32-byte VK hash used
as a concrete argument in witnesses. -/
def vkZeros : String := String.mk (List.replicate 64 '0')

/-! ## Attester service — `zk-attestation-service/attester/src/main.rs`

The SP1 SDK (`ProverClient`, `SP1ProvingKey`, `SP1VerifyingKey`) is an
external dependency of the attester; its values are modelled as records and
the client as a record of functions supplied to `attest`.  The zkVM proof
artifacts themselves are outside the shallow embedding. -/

/-- `sp1_sdk::SP1ProvingKey` (opaque derived artifact). -/
structure SP1ProvingKey where
  blob : List Nat
deriving DecidableEq

/-- `sp1_sdk::SP1VerifyingKey`.  The SDK's `vk.bytes32()` (the 32-byte hash
of the key, `0x`-prefixed) is modelled as a stored field of the key. -/
structure SP1VerifyingKey where
  bytes32 : String
deriving DecidableEq

/-- A generated SP1 proof: the bytes the guest committed
(`proof.public_values.as_slice()`) and the Groth16-wrapped proof bytes
(`proof.bytes()`). -/
structure SP1Proof where
  public_values : List Nat
  bytes : List Nat
deriving DecidableEq

/-- `sp1_sdk::ProverClient`, as used by `attest`: key setup from an ELF,
Groth16 proving on given stdin bytes, and local verification.  The two
fallible operations return `Except` (the source calls `.expect(...)` on
them, i.e. panics on failure). -/
structure ProverClient where
  setup : List Nat → SP1ProvingKey × SP1VerifyingKey
  prove_groth16 : SP1ProvingKey → List Nat → Except String SP1Proof
  verify : SP1Proof → SP1VerifyingKey → Except String Unit

/-- `type ElfStore = HashMap<String, Vec<u8>>` (program_id → ELF bytes),
modelled as an association list; `insert` prepends, `List.lookup` returns
the most recent binding, matching `HashMap` insert/get. -/
abbrev ElfStore := List (String × List Nat)

/-- `type KeyCache = HashMap<String, (SP1ProvingKey, SP1VerifyingKey)>`,
modelled as an association list. -/
abbrev KeyCache := List (String × (SP1ProvingKey × SP1VerifyingKey))

/-- `RegisterResponse` (attester/src/main.rs:39-43): exactly the two fields
`program_id` and `registered_at`. -/
structure RegisterResponse where
  program_id : String
  registered_at : String
deriving DecidableEq

/-- `zk_protocol::AttestRequest`. -/
structure AttestRequest where
  program_id : String
  input_bytes : List Nat
  claimed_output : Option Json
  verify_locally : Bool

/-- `zk_protocol::AttestResponse`. -/
structure AttestResponse where
  proof : String
  public_values : String
  vk_hash : String
  verified_output : Json

/-- `register_elf` (attester/src/main.rs:46-90).  The multipart reading
loop is modelled by its outcome `elf_field` (the bytes of the `elf` field,
or `none` when the field is absent); `Uuid::new_v4().to_string()` and the
RFC 3339 timestamp are ambient-environment values passed in as `uuid` and
`ts`.  On success the binary is inserted into the store keyed by the fresh
id, and the response carries exactly `program_id` and `registered_at`. -/
def register_elf (store : ElfStore) (uuid ts : String)
    (elf_field : Option (List Nat)) : Except String (RegisterResponse × ElfStore) :=
  match elf_field with
  | none => Except.error "ELF file required but not found in request"
  | some elf =>
    Except.ok ({ program_id := uuid, registered_at := ts }, (uuid, elf) :: store)

/-- Step 2 of `attest` (attester/src/main.rs:107-122), the proving-key
cache access, written as a named helper: on a hit, return the cached pair
and leave the cache unchanged; on a miss, run `prover.setup` on the ELF and
insert the new pair.  The returned `Bool` records whether derivation ran
(`true` exactly on a miss). -/
def get_or_create_keys (prover : ProverClient) (cache : KeyCache)
    (program_id : String) (elf : List Nat) :
    (SP1ProvingKey × SP1VerifyingKey) × KeyCache × Bool :=
  match List.lookup program_id cache with
  | some pair => (pair, cache, false)
  | none =>
    let pair := prover.setup elf
    (pair, (program_id, pair) :: cache, true)

/-- `attest` (attester/src/main.rs:93-173).

1. fetch the registered ELF — `.expect("Unknown program_id")` on a missing
   id, i.e. a hard failure with no default;
2. get or compute the key pair (`get_or_create_keys`);
3. `vk_hash = vk.bytes32()`;
4. stdin is the request's `input_bytes`;
5. Groth16 proving — `.expect("Proving failed")`;
6. if `verify_locally`, local verification — `.expect("Verification failed")`;
7. `verified_output` is `claimed_output.unwrap_or(json!({}))`, echoed
   verbatim; `proof` and `public_values` are hex-encoded.

Returns the response together with the updated key cache. -/
def attest (prover : ProverClient) (store : ElfStore) (cache : KeyCache)
    (payload : AttestRequest) : Except String (AttestResponse × KeyCache) := do
  let elf ← match List.lookup payload.program_id store with
    | some e => Except.ok e
    | none => Except.error "Unknown program_id"
  let out := get_or_create_keys prover cache payload.program_id elf
  let pk := out.1.1
  let vk := out.1.2
  let cache' := out.2.1
  let vk_hash_str := vk.bytes32
  let proof ← match prover.prove_groth16 pk payload.input_bytes with
    | Except.ok p => Except.ok p
    | Except.error _ => Except.error "Proving failed"
  let _ ← if payload.verify_locally then
      match prover.verify proof vk with
      | Except.ok _ => Except.ok ()
      | Except.error _ => Except.error "Verification failed"
    else Except.ok ()
  let actual_output := (payload.claimed_output).getD (Json.obj [])
  Except.ok ({ proof := hexEncode proof.bytes,
               public_values := hexEncode proof.public_values,
               vk_hash := vk_hash_str,
               verified_output := actual_output }, cache')

/-! ## SHA-256 (the `sha2` crate's `Sha256`, FIPS 180-4)

Both `tap_signature.rs` (`sign_message`) and `agent-b/server/src/main.rs`
(the ELF content hash) call `Sha256`; the function is embedded here over
byte lists, all 32-bit words as `Nat` reduced `% 2 ^ 32`. -/

/-- Big-endian byte decomposition of `n` into exactly `k` bytes
(most significant first). -/
def beBytes : Nat → Nat → List Nat
  | 0, _ => []
  | k + 1, n => beBytes k (n / 256) ++ [n % 256]

/-- 32-bit right rotation. -/
def rotr32 (x n : Nat) : Nat := ((x >>> n) ||| (x <<< (32 - n))) % 2 ^ 32

/-- FIPS 180-4 `Ch(x,y,z) = (x ∧ y) ⊕ (¬x ∧ z)` on 32-bit words. -/
def shaCh (x y z : Nat) : Nat := (x &&& y) ^^^ ((x ^^^ 0xffffffff) &&& z)

/-- FIPS 180-4 `Maj(x,y,z)`. -/
def shaMaj (x y z : Nat) : Nat := (x &&& y) ^^^ (x &&& z) ^^^ (y &&& z)

/-- FIPS 180-4 `Σ₀`. -/
def bigSigma0 (x : Nat) : Nat := rotr32 x 2 ^^^ rotr32 x 13 ^^^ rotr32 x 22

/-- FIPS 180-4 `Σ₁`. -/
def bigSigma1 (x : Nat) : Nat := rotr32 x 6 ^^^ rotr32 x 11 ^^^ rotr32 x 25

/-- FIPS 180-4 `σ₀`. -/
def smallSigma0 (x : Nat) : Nat := rotr32 x 7 ^^^ rotr32 x 18 ^^^ (x >>> 3)

/-- FIPS 180-4 `σ₁`. -/
def smallSigma1 (x : Nat) : Nat := rotr32 x 17 ^^^ rotr32 x 19 ^^^ (x >>> 10)

/-- The 64 SHA-256 round constants. -/
def shaK : List Nat :=
  [1116352408, 1899447441, 3049323471, 3921009573, 961987163,
   1508970993, 2453635748, 2870763221, 3624381080, 310598401,
   607225278, 1426881987, 1925078388, 2162078206, 2614888103,
   3248222580, 3835390401, 4022224774, 264347078, 604807628,
   770255983, 1249150122, 1555081692, 1996064986, 2554220882,
   2821834349, 2952996808, 3210313671, 3336571891, 3584528711,
   113926993, 338241895, 666307205, 773529912, 1294757372,
   1396182291, 1695183700, 1986661051, 2177026350, 2456956037,
   2730485921, 2820302411, 3259730800, 3345764771, 3516065817,
   3600352804, 4094571909, 275423344, 430227734, 506948616,
   659060556, 883997877, 958139571, 1322822218, 1537002063,
   1747873779, 1955562222, 2024104815, 2227730452, 2361852424,
   2428436474, 2756734187, 3204031479, 3329325298]

/-- The SHA-256 initial hash value. -/
def shaH0 : List Nat :=
  [1779033703, 3144134277, 1013904242, 2773480762, 1359893119,
   2600822924, 528734635, 1541459225]

/-- FIPS 180-4 padding: append `0x80`, zero bytes to 56 mod 64, then the
bit length as 8 big-endian bytes. -/
def sha256Pad (msg : List Nat) : List Nat :=
  let len := msg.length
  let padZeros := (119 - len % 64) % 64
  msg ++ [0x80] ++ List.replicate padZeros 0 ++ beBytes 8 (len * 8)

/-- Group bytes into big-endian 32-bit words. -/
def toWords32 : List Nat → List Nat
  | b₀ :: b₁ :: b₂ :: b₃ :: rest =>
    (((b₀ * 256 + b₁) * 256 + b₂) * 256 + b₃) :: toWords32 rest
  | _ => []

/-- Extend the 16 block words by `k` more schedule words
(`k = 48` for a full schedule). -/
def extendWords : Nat → List Nat → List Nat
  | 0, w => w
  | k + 1, w =>
    let i := w.length
    let wi := (smallSigma1 (w.getD (i - 2) 0) + w.getD (i - 7) 0 +
               smallSigma0 (w.getD (i - 15) 0) + w.getD (i - 16) 0) % 2 ^ 32
    extendWords k (w ++ [wi])

/-- One SHA-256 compression: fold the 64 rounds over the working variables
`[a,b,c,d,e,f,g,h]`, then add the result to the incoming state. -/
def sha256Compress (hs : List Nat) (block : List Nat) : List Nat :=
  let w := extendWords 48 (toWords32 block)
  let step := fun (st : List Nat) (kw : Nat × Nat) =>
    match st with
    | [a, b, c, d, e, f, g, h] =>
      let t₁ := (h + bigSigma1 e + shaCh e f g + kw.1 + kw.2) % 2 ^ 32
      let t₂ := (bigSigma0 a + shaMaj a b c) % 2 ^ 32
      [(t₁ + t₂) % 2 ^ 32, a, b, c, (d + t₁) % 2 ^ 32, e, f, g]
    | other => other
  let fin := (shaK.zip w).foldl step hs
  (hs.zip fin).map fun p => (p.1 + p.2) % 2 ^ 32

/-- Compress 64-byte blocks in sequence; `fuel` bounds the recursion
(structurally) and is instantiated with the byte length, which always
suffices. -/
def sha256BlocksGo : Nat → List Nat → List Nat → List Nat
  | 0, hs, _ => hs
  | fuel + 1, hs, bytes =>
    match bytes with
    | [] => hs
    | _ => sha256BlocksGo fuel (sha256Compress hs (bytes.take 64)) (bytes.drop 64)

/-- SHA-256 of a byte list, as a 32-byte list. -/
def sha256 (msg : List Nat) : List Nat :=
  let padded := sha256Pad msg
  (sha256BlocksGo padded.length shaH0 padded).flatMap (beBytes 4)

/-! ## Base64 and UTF-8 (std `base64::STANDARD` engine, Rust string bytes) -/

/-- The standard base64 alphabet. -/
def base64Alphabet : List Char :=
  "ABCDEFGHIJKLMNOPQRSTUVWXYZabcdefghijklmnopqrstuvwxyz0123456789+/".data

/-- Character for one 6-bit group. -/
def base64Char (n : Nat) : Char := base64Alphabet.getD n 'A'

/-- Standard base64 with padding (`base64::engine::general_purpose::STANDARD`). -/
def base64Encode : List Nat → String
  | [] => ""
  | [b₀] =>
    String.mk [base64Char (b₀ >>> 2), base64Char ((b₀ &&& 3) <<< 4)] ++ "=="
  | [b₀, b₁] =>
    String.mk [base64Char (b₀ >>> 2), base64Char (((b₀ &&& 3) <<< 4) ||| (b₁ >>> 4)),
               base64Char ((b₁ &&& 15) <<< 2)] ++ "="
  | b₀ :: b₁ :: b₂ :: rest =>
    String.mk [base64Char (b₀ >>> 2), base64Char (((b₀ &&& 3) <<< 4) ||| (b₁ >>> 4)),
               base64Char (((b₁ &&& 15) <<< 2) ||| (b₂ >>> 6)), base64Char (b₂ &&& 63)] ++
    base64Encode rest

/-- UTF-8 bytes of one character. -/
def charUtf8Bytes (c : Char) : List Nat :=
  let n := c.toNat
  if n < 0x80 then [n]
  else if n < 0x800 then [0xc0 ||| (n >>> 6), 0x80 ||| (n &&& 0x3f)]
  else if n < 0x10000 then
    [0xe0 ||| (n >>> 12), 0x80 ||| ((n >>> 6) &&& 0x3f), 0x80 ||| (n &&& 0x3f)]
  else
    [0xf0 ||| (n >>> 18), 0x80 ||| ((n >>> 12) &&& 0x3f),
     0x80 ||| ((n >>> 6) &&& 0x3f), 0x80 ||| (n &&& 0x3f)]

/-- The UTF-8 bytes of a string (Rust `str::as_bytes`). -/
def strUtf8 (s : String) : List Nat := s.data.flatMap charUtf8Bytes

/-- Rust `String::len`: the UTF-8 byte length. -/
def utf8Len (s : String) : Nat := (strUtf8 s).length

/-! ## Message Signature Module — `agent-a/mcp-client/src/tap_signature.rs` -/

/-- `TapConfig` (tap_signature.rs:22-32). -/
structure TapConfig where
  private_key_pem : String
  key_id : String
  algorithm : String
  tag : String
deriving DecidableEq

/-- `TapSignatureHeaders` (tap_signature.rs:11-19). -/
structure TapSignatureHeaders where
  signature_input : String
  signature : String
  key_id : String
deriving DecidableEq

/-- `sign_message` (tap_signature.rs:152-163): computes the SHA-256 hash of
the message and returns that hash as the "signature"; the
`private_key_pem` argument is not consulted (the source comments call this
a demo stand-in for real Ed25519/RSA signing). -/
def sign_message (private_key_pem : String) (message : List Nat) : List Nat :=
  sha256 message

/-- The `@signature-params` line of the base string, also used as the
`Signature-Input` header value (tap_signature.rs:104-115 and 127-135):
`sig2=("@authority" "@path");created=…;expires=…;keyId="…";alg="…";nonce="…";tag="…"`. -/
def tapSignatureParams (cfg : TapConfig) (created expires : Int) (nonce : String) : String :=
  "sig2=(\"@authority\" \"@path\");created=" ++ toString created ++
  ";expires=" ++ toString expires ++
  ";keyId=\"" ++ cfg.key_id ++
  "\";alg=\"" ++ cfg.algorithm ++
  "\";nonce=\"" ++ nonce ++
  "\";tag=\"" ++ cfg.tag ++ "\""

/-- The canonical signature base string (tap_signature.rs:104-115):
the `@authority` line, the `@path` line, then the `@signature-params`
line. -/
def tapSignatureBase (cfg : TapConfig) (authority path : String)
    (created expires : Int) (nonce : String) : String :=
  "\"@authority\": " ++ authority ++
  "\n\"@path\": " ++ path ++
  "\n\"@signature-params\": " ++ tapSignatureParams cfg created expires nonce

/-- `create_tap_signature` (tap_signature.rs:81-148).  The system clock
(`SystemTime::now`, seconds since the epoch) and the random nonce from
`generate_nonce` are ambient-environment values passed in as `now` and
`nonce`.  `created = now`, `expires = now + 480`; the base string is signed
with `sign_message`, base64-encoded, and wrapped as `sig2=:…: ` (the
source's format string carries a trailing space). -/
def create_tap_signature (cfg : TapConfig) (authority path : String)
    (now : Int) (nonce : String) : TapSignatureHeaders :=
  let created := now
  let expires := now + 480
  let signature_base := tapSignatureBase cfg authority path created expires nonce
  let signature_bytes := sign_message cfg.private_key_pem (strUtf8 signature_base)
  let signature_b64 := base64Encode signature_bytes
  { signature_input := tapSignatureParams cfg created expires nonce,
    signature := "sig2=:" ++ signature_b64 ++ ": ",
    key_id := cfg.key_id }

/-! ## Deterministic compute module — `agent-b/pricing-core/src/*.rs`

The crate is `no_std` (+ `alloc`): the only primitives available to it are
string/arithmetic operations, which is what makes the embedding below a
total pure function.  Rust `f64` arithmetic on the price is modelled
exactly over `ℚ` (the source's constants `680.0`, `675.0`, `450.0`, `0.85`
and one multiplication); `f64` operations are themselves deterministic
functions, so this modelling preserves the control flow and the
determinism question.  Rust field `from` is rendered `from_` (`from` is a
Lean keyword). -/

/-- `pricing::Request` (pricing.rs:4-9). -/
structure pricing.Request where
  from_ : String
  to_ : String
  vip : Bool
deriving DecidableEq

/-- `pricing::Response` (pricing.rs:11-14). -/
structure pricing.Response where
  price : ℚ
deriving DecidableEq

/-- `pricing::handle` (pricing.rs:18-38): route-based base fare, 15% VIP
discount. -/
def pricing.handle (req : pricing.Request) : pricing.Response :=
  let base : ℚ :=
    if req.from_ = "NYC" ∧ req.to_ = "LON" then 680
    else if req.from_ = "LON" ∧ req.to_ = "NYC" then 675
    else 450
  let price := if req.vip then base * (85 / 100) else base
  { price := price }

/-- `booking::Request` (booking.rs:4-10). -/
structure booking.Request where
  from_ : String
  to_ : String
  passenger_name : String
  passenger_email : String
deriving DecidableEq

/-- `booking::Response` (booking.rs:12-17). -/
structure booking.Response where
  booking_id : String
  status : String
  confirmation_code : String
deriving DecidableEq

/-- Uppercase hex digit. -/
def hexUpperDigitChar (n : Nat) : Char :=
  if n < 10 then Char.ofNat ('0'.toNat + n) else Char.ofNat ('A'.toNat + (n - 10))

/-- Uppercase hex digits of `n`, most significant first; `fuel` bounds the
recursion structurally and is instantiated with `n`, which always
suffices. -/
def natHexUpperGo : Nat → Nat → List Char → List Char
  | 0, _, acc => acc
  | _, 0, acc => acc
  | fuel + 1, n + 1, acc =>
    natHexUpperGo fuel ((n + 1) / 16) (hexUpperDigitChar ((n + 1) % 16) :: acc)

/-- Rust `{:X}` of a `usize`. -/
def toHexUpper (n : Nat) : String :=
  if n = 0 then "0" else String.mk (natHexUpperGo n n [])

/-- Rust zero-padding to a minimum field width (`{:08X}` etc.). -/
def zeroPadLeft (w : Nat) (s : String) : String :=
  String.mk (List.replicate (w - s.data.length) '0') ++ s

/-- `booking::handle` (booking.rs:21-44): a deterministic booking id and
confirmation code derived from the UTF-8 byte length of
`"{from}-{to}-{passenger_name}-{passenger_email}"`.  `usize` is 32 bits on
the riscv32 zkVM target, so the multiplications wrap `% 2 ^ 32`. -/
def booking.handle (req : booking.Request) : booking.Response :=
  let booking_data :=
    req.from_ ++ "-" ++ req.to_ ++ "-" ++ req.passenger_name ++ "-" ++ req.passenger_email
  let len := utf8Len booking_data
  let booking_id := "BK" ++ zeroPadLeft 8 (toHexUpper (len * 12345 % 2 ^ 32))
  let confirmation_code := "CONF" ++ zeroPadLeft 6 (toHexUpper (len * 67890 % 2 ^ 32))
  { booking_id := booking_id,
    status := "confirmed",
    confirmation_code := confirmation_code }

/-- `RpcCall` (pricing-core/src/lib.rs:11-15): the single input enum. -/
inductive RpcCall where
  | GetPrice (req : pricing.Request)
  | BookFlight (req : booking.Request)
deriving DecidableEq

/-- `RpcResult` (pricing-core/src/lib.rs:17-23): the single output enum. -/
inductive RpcResult where
  | Price (resp : pricing.Response)
  | Booking (resp : booking.Response)
  | Error (msg : String)
deriving DecidableEq

/-- `handle_call` (pricing-core/src/lib.rs:26-31): the dispatcher run both
natively and inside SP1. -/
def handle_call (call : RpcCall) : RpcResult :=
  match call with
  | .GetPrice req => RpcResult.Price (pricing.handle req)
  | .BookFlight req => RpcResult.Booking (booking.handle req)

/-- An execution environment for one run of the guest entry point: the
ambient sources of nondeterminism an execution could in principle observe
(a clock reading, a randomness stream, I/O responses keyed by request).
The embedded `handle_call` consults none of them — the crate is `no_std`
with no I/O imports — which `run_handle_call` makes explicit. -/
structure ExecEnv where
  clock : Nat
  randomness : List Nat
  io : List (String × List Nat)

/-- One execution of the compute module's entry point in environment
`env` (agent-b/program/src/lib.rs reads the call, runs `handle_call`,
commits the result): the result is `handle_call call`, with no access to
`env`. -/
def run_handle_call (env : ExecEnv) (call : RpcCall) : RpcResult :=
  handle_call call

/-! ## Agent B server — `agent-b/server/src/main.rs` -/

/-- `AppState` (agent-b/server/src/main.rs:46-51). -/
structure AppState where
  program_id : String
  elf_hash : String
  booking_api_url : Option String

/-- `PriceRequest` (agent-b/server/src/main.rs:14-19). -/
structure PriceRequest where
  from_ : String
  to_ : String
  vip : Bool

/-- `PriceResponse` (agent-b/server/src/main.rs:21-27). -/
structure PriceResponse where
  price : ℚ
  program_id : String
  elf_hash : String

/-- The ELF content hash computed in `main`
(agent-b/server/src/main.rs:227-230): `format!("0x{}", hex::encode(Sha256(elf)))`. -/
def agentB_elf_hash (elf_bytes : List Nat) : String :=
  "0x" ++ hexEncode (sha256 elf_bytes)

/-- `AppState` construction in `main` (agent-b/server/src/main.rs:226-252):
the `elf_hash` field is the SHA-256 content hash of the loaded ELF, the
`program_id` is the one returned by the attester's `/register-elf`. -/
def mkAppState (elf_bytes : List Nat) (program_id : String)
    (booking_api_url : Option String) : AppState :=
  { program_id := program_id,
    elf_hash := agentB_elf_hash elf_bytes,
    booking_api_url := booking_api_url }

/-- `price_handler` (agent-b/server/src/main.rs:53-71): delegates to
`pricing::handle` and attaches the state's `program_id` and `elf_hash`. -/
def price_handler (state : AppState) (req : PriceRequest) : PriceResponse :=
  let core_resp := pricing.handle { from_ := req.from_, to_ := req.to_, vip := req.vip }
  { price := core_resp.price,
    program_id := state.program_id,
    elf_hash := state.elf_hash }

/-- A concrete `ProverClient` instance used to exercise `attest` on
concrete inputs: setup stores the ELF in the proving key, proving echoes
the stdin as public values with fixed proof bytes `[0, 1]`, verification
always succeeds. -/
def trivialProver : ProverClient :=
  { setup := fun elf => (⟨elf⟩, ⟨"0xvk"⟩),
    prove_groth16 := fun _ input => Except.ok ⟨input, [0, 1]⟩,
    verify := fun _ _ => Except.ok () }

/-! ## Theorems -/

/-- If an association-list lookup misses, the key is absent from the key
column. -/
theorem lookup_none_not_mem_keys {β : Type} (a : String) (l : List (String × β))
    (h : List.lookup a l = none) : a ∉ l.map Prod.fst := by
  induction l with
  | nil => simp
  | cons p rest ih =>
    simp only [List.lookup] at h
    by_cases hab : a = p.1
    · simp [hab, beq_self_eq_true] at h
    · have hb : (a == p.1) = false := beq_eq_false_iff_ne.mpr hab
      rw [hb] at h
      simp only [List.map_cons, List.mem_cons]
      exact fun hc => hc.elim (fun he => hab he) (fun hm => ih h hm)

/-- C1 — counterexample.  A malformed JSON-RPC envelope (neither an `error`
field nor a string `result`; here: both fields absent), with well-formed
hex arguments and an unreachable-node-free transport, makes
`verify_on_chain` return the successful value `false`, not a hard error —
contradicting the claim that a malformed envelope is surfaced as an
error. -/
theorem C1_counterexample :
    verify_on_chain "" "" vkZeros (Except.ok ⟨none, none⟩) = Except.ok false := rfl

/-- C1 — amended: when the hex arguments decode and the fingerprint is
32 bytes, a transport-level failure *before a JSON-RPC envelope is
obtained* (unreachable node, non-JSON body) is propagated as a hard error;
but a JSON-RPC envelope that is neither an error object nor a string
result is coerced to the successful value `false`. -/
theorem C1_transport_eval (ph pv vkh : String) (pb pvb vkb : List Nat)
    (h₁ : hexDecode (dropHexMark ph) = some pb)
    (h₂ : hexDecode (dropHexMark pv) = some pvb)
    (h₃ : hexDecode (dropHexMark vkh) = some vkb)
    (h₄ : vkb.length = 32) :
    (∀ e, verify_on_chain ph pv vkh (Except.error e) = Except.error e) ∧
    (∀ r : RpcResponse, r.error = none → r.result.bind Json.as_str = none →
      verify_on_chain ph pv vkh (Except.ok r) = Except.ok false) := by
  constructor
  · intro e
    simp [verify_on_chain, h₁, h₂, h₃, h₄, Bind.bind, Except.bind]
  · intro r hr hs
    simp [verify_on_chain, h₁, h₂, h₃, h₄, hr, hs, Bind.bind, Except.bind]

/-- C1 — witness for `C1_transport_eval` at concrete inputs. -/
theorem C1_transport_eval_witness :
    verify_on_chain "" "" vkZeros (Except.error "connection refused") =
      Except.error "connection refused" ∧
    verify_on_chain "" "" vkZeros (Except.ok ⟨none, some (Json.num 3)⟩) =
      Except.ok false :=
  ⟨(C1_transport_eval "" "" vkZeros [] [] (List.replicate 32 0) rfl rfl (by decide)
      (by decide)).1 "connection refused",
   (C1_transport_eval "" "" vkZeros [] [] (List.replicate 32 0) rfl rfl (by decide)
      (by decide)).2 ⟨none, some (Json.num 3)⟩ rfl rfl⟩

/-- C2 — confirmed: for an invocation whose hex arguments decode and whose
fingerprint is 32 bytes, given a well-formed JSON-RPC envelope (exactly one
of: an `error` field, or a string `result`), `verify_on_chain` returns
`false` exactly when the envelope carries an `error` field (revert) and
`true` exactly when it carries a string `result`; validity is signalled by
not reverting, never by a boolean payload. -/
theorem C2_revert_inversion (ph pv vkh : String) (pb pvb vkb : List Nat)
    (r : RpcResponse)
    (h₁ : hexDecode (dropHexMark ph) = some pb)
    (h₂ : hexDecode (dropHexMark pv) = some pvb)
    (h₃ : hexDecode (dropHexMark vkh) = some vkb)
    (h₄ : vkb.length = 32)
    (h₅ : r.error.isSome ≠ (r.result.bind Json.as_str).isSome) :
    (verify_on_chain ph pv vkh (Except.ok r) = Except.ok false ↔
      r.error.isSome = true) ∧
    (verify_on_chain ph pv vkh (Except.ok r) = Except.ok true ↔
      (r.result.bind Json.as_str).isSome = true) := by
  cases he : r.error with
  | some err =>
    have hs : r.result.bind Json.as_str = none := by
      cases hsx : r.result.bind Json.as_str with
      | none => rfl
      | some s => rw [he, hsx] at h₅; simp at h₅
    simp [verify_on_chain, h₁, h₂, h₃, h₄, he, hs, Bind.bind, Except.bind]
  | none =>
    cases hs : r.result.bind Json.as_str with
    | some s =>
      simp [verify_on_chain, h₁, h₂, h₃, h₄, he, hs, Bind.bind, Except.bind]
    | none =>
      rw [he, hs] at h₅
      simp at h₅

/-- C2 — witness for `C2_revert_inversion`: a revert envelope yields
`false`, a string-result envelope yields `true`. -/
theorem C2_revert_inversion_witness :
    verify_on_chain "" "" vkZeros
      (Except.ok ⟨some (Json.str "execution reverted"), none⟩) = Except.ok false ∧
    verify_on_chain "" "" vkZeros
      (Except.ok ⟨none, some (Json.str "0x")⟩) = Except.ok true :=
  ⟨(C2_revert_inversion "" "" vkZeros [] [] (List.replicate 32 0)
      ⟨some (Json.str "execution reverted"), none⟩ rfl rfl (by decide) (by decide)
      (by decide)).1.mpr rfl,
   (C2_revert_inversion "" "" vkZeros [] [] (List.replicate 32 0)
      ⟨none, some (Json.str "0x")⟩ rfl rfl (by decide) (by decide)
      (by decide)).2.mpr rfl⟩

/-- C3 — counterexample.  Two configurations that differ only in the
configured private key produce the identical Signature header on the same
base string (at concrete inputs), so the Signature value cannot have been
produced by signing with the configured private key: `sign_message`
computes a bare SHA-256 of the base string and never reads the key. -/
theorem C3_counterexample :
    ("key-material-A" : String) ≠ "key-material-B" ∧
    create_tap_signature
        ⟨"key-material-A", "agent-key-id", "Ed25519", "agent-browser-auth"⟩
        "example.com" "/api/product" 1700000000 "n0nce" =
      create_tap_signature
        ⟨"key-material-B", "agent-key-id", "Ed25519", "agent-browser-auth"⟩
        "example.com" "/api/product" 1700000000 "n0nce" :=
  ⟨by decide, rfl⟩

/-- C3 — amended: the Signature header value is
`sig2=:` + base64(SHA-256(canonical base string)) + `: `, a bare hash of
the exact bytes of the base string, computed without using the configured
private key (the headers are invariant under changing
`private_key_pem`). -/
theorem C3_hash_not_signature (cfg : TapConfig) (authority path : String)
    (now : Int) (nonce : String) :
    (create_tap_signature cfg authority path now nonce).signature =
      "sig2=:" ++
        base64Encode (sha256 (strUtf8
          (tapSignatureBase cfg authority path now (now + 480) nonce))) ++ ": " ∧
    ∀ pem, create_tap_signature { cfg with private_key_pem := pem }
        authority path now nonce =
      create_tap_signature cfg authority path now nonce :=
  ⟨rfl, fun _ => rfl⟩

/-- C4 — counterexample.  The registry's registration response is
invariant under changing the registered binary (at concrete inputs: the
distinct binaries `[0]` and `[1]`), and consists of exactly
`program_id` and `registered_at` — so `register_elf` does not expose any
content hash of the binary. -/
theorem C4_counterexample :
    ([0] : List Nat) ≠ [1] ∧
    register_elf [] "pid-1" "2024-01-01T00:00:00Z" (some [0]) =
      Except.ok ({ program_id := "pid-1", registered_at := "2024-01-01T00:00:00Z" },
        [("pid-1", [0])]) ∧
    Except.map Prod.fst (register_elf [] "pid-1" "2024-01-01T00:00:00Z" (some [0])) =
      Except.map Prod.fst (register_elf [] "pid-1" "2024-01-01T00:00:00Z" (some [1])) :=
  ⟨by decide, rfl, rfl⟩

/-- C4 — amended: the SHA-256 content hash of the binary is computed and
exposed by the registering client (Agent B's server), which stores
`0x` + hex(SHA-256(elf)) as `elf_hash` and serves it alongside the
`program_id` in every pricing response; the registry's own registration
response carries only `program_id` and `registered_at`. -/
theorem C4_client_content_hash (elf : List Nat) (pid : String)
    (url : Option String) (req : PriceRequest) :
    (mkAppState elf pid url).elf_hash = "0x" ++ hexEncode (sha256 elf) ∧
    (price_handler (mkAppState elf pid url) req).elf_hash =
      "0x" ++ hexEncode (sha256 elf) ∧
    (price_handler (mkAppState elf pid url) req).program_id = pid :=
  ⟨rfl, rfl, rfl⟩

/-- C5 — confirmed: looking up the program_id returned by registering `B`
yields exactly `B`, and two registrations, even of the identical binary,
return two distinct program ids.  `Uuid::new_v4()` is modelled as an
externally supplied identifier per call (`u₁`, `u₂`); UUID-class
uniqueness of the two draws is the hypothesis `huuid`. -/
theorem C5_registry_roundtrip (store : ElfStore) (u₁ u₂ t₁ t₂ : String)
    (B : List Nat) (huuid : u₁ ≠ u₂) :
    ∀ r₁ s₁ r₂ s₂, register_elf store u₁ t₁ (some B) = Except.ok (r₁, s₁) →
      register_elf s₁ u₂ t₂ (some B) = Except.ok (r₂, s₂) →
      List.lookup r₁.program_id s₁ = some B ∧
      List.lookup r₂.program_id s₂ = some B ∧
      r₁.program_id ≠ r₂.program_id := by
  intro r₁ s₁ r₂ s₂ h₁ h₂
  simp only [register_elf, Except.ok.injEq, Prod.mk.injEq] at h₁ h₂
  obtain ⟨hr₁, hs₁⟩ := h₁
  obtain ⟨hr₂, hs₂⟩ := h₂
  subst hr₁ hs₁ hr₂ hs₂
  refine ⟨?_, ?_, ?_⟩
  · simp [List.lookup]
  · simp [List.lookup]
  · simpa using huuid

/-- C5 — witness for `C5_registry_roundtrip` on the binary `[7, 8]` and
fresh ids `"p1"`, `"p2"`. -/
theorem C5_registry_roundtrip_witness :
    List.lookup "p1" [("p1", [7, 8])] = some [7, 8] ∧
    List.lookup "p2" [("p2", [7, 8]), ("p1", [7, 8])] = some [7, 8] ∧
    ("p1" : String) ≠ "p2" :=
  C5_registry_roundtrip [] "p1" "p2" "t1" "t2" [7, 8] (by decide)
    { program_id := "p1", registered_at := "t1" } [("p1", [7, 8])]
    { program_id := "p2", registered_at := "t2" } [("p2", [7, 8]), ("p1", [7, 8])]
    rfl rfl

/-- C6 — confirmed: an attestation request whose `program_id` is not in
the registry fails hard with the `Unknown program_id` error (the source's
`.expect("Unknown program_id")`), with no silent default result. -/
theorem C6_unknown_program (prover : ProverClient) (store : ElfStore)
    (cache : KeyCache) (payload : AttestRequest)
    (h : List.lookup payload.program_id store = none) :
    attest prover store cache payload = Except.error "Unknown program_id" := by
  simp [attest, h, Bind.bind, Except.bind]

/-- C6 — witness for `C6_unknown_program`: the empty registry knows no
program. -/
theorem C6_unknown_program_witness :
    attest trivialProver [] [] ⟨"missing-id", [1], none, true⟩ =
      Except.error "Unknown program_id" :=
  C6_unknown_program trivialProver [] [] ⟨"missing-id", [1], none, true⟩ rfl

/-- C7 — confirmed: every successful `attest` call returns as
`verified_output` exactly the caller-supplied `claimed_output` (the empty
JSON object when absent), regardless of the prover, the registry, the
cache and the public values the execution committed. -/
theorem C7_verified_output_echo (prover : ProverClient) (store : ElfStore)
    (cache : KeyCache) (payload : AttestRequest) (resp : AttestResponse)
    (cache' : KeyCache)
    (h : attest prover store cache payload = Except.ok (resp, cache')) :
    resp.verified_output = payload.claimed_output.getD (Json.obj []) := by
  simp only [attest, Bind.bind, Except.bind] at h
  repeat split at h
  all_goals first
    | (simp only [Except.ok.injEq, Prod.mk.injEq] at h
       obtain ⟨hr, -⟩ := h
       subst hr
       rfl)
    | (refine absurd h ?_ ; simp)

/-- C7 — witness for `C7_verified_output_echo`: a concrete successful run
echoing the claimed output `42`. -/
theorem C7_verified_output_echo_witness :
    attest trivialProver [("pid", [1, 2, 3])] []
        ⟨"pid", [9], some (Json.num 42), true⟩ =
      Except.ok (⟨"0001", "09", "0xvk", Json.num 42⟩,
        [("pid", (⟨[1, 2, 3]⟩, ⟨"0xvk"⟩))]) ∧
    (⟨"0001", "09", "0xvk", Json.num 42⟩ : AttestResponse).verified_output =
      (some (Json.num 42)).getD (Json.obj []) :=
  ⟨rfl, C7_verified_output_echo trivialProver [("pid", [1, 2, 3])] []
    ⟨"pid", [9], some (Json.num 42), true⟩ ⟨"0001", "09", "0xvk", Json.num 42⟩
    [("pid", (⟨[1, 2, 3]⟩, ⟨"0xvk"⟩))] rfl⟩

/-- C8 — confirmed: the proving-key cache step of `attest` satisfies
(i) on a hit it returns the cached pair, leaves the cache unchanged and
performs no derivation (the `false` flag); (ii) it preserves the
one-entry-per-program_id invariant (distinct keys); (iii) an entry, once
present, is still looked up unchanged after any further request —
it is never replaced by a different pair. -/
theorem C8_key_cache (prover : ProverClient) (cache : KeyCache) (pid : String)
    (elf : List Nat) (hnodup : (cache.map Prod.fst).Nodup) :
    (∀ pair, List.lookup pid cache = some pair →
      get_or_create_keys prover cache pid elf = (pair, cache, false)) ∧
    (((get_or_create_keys prover cache pid elf).2.1.map Prod.fst).Nodup) ∧
    (∀ pid' pair', List.lookup pid' cache = some pair' →
      List.lookup pid' (get_or_create_keys prover cache pid elf).2.1 = some pair') := by
  refine ⟨?_, ?_, ?_⟩
  · intro pair hpair
    simp [get_or_create_keys, hpair]
  · cases hl : List.lookup pid cache with
    | some pair => simpa [get_or_create_keys, hl] using hnodup
    | none =>
      have hmem := lookup_none_not_mem_keys pid cache hl
      simp only [get_or_create_keys, hl, List.map_cons, List.nodup_cons]
      exact ⟨hmem, hnodup⟩
  · intro pid' pair' hpair'
    cases hl : List.lookup pid cache with
    | some pair => simpa [get_or_create_keys, hl] using hpair'
    | none =>
      simp only [get_or_create_keys, hl, List.lookup]
      by_cases hp : pid' = pid
      · subst hp
        rw [hpair'] at hl
        exact absurd hl (by simp)
      · rw [beq_eq_false_iff_ne.mpr hp]
        exact hpair'

/-- C8 — witness for `C8_key_cache`: a concrete hit on a one-entry cache
returns the cached pair, unchanged cache, and no derivation. -/
theorem C8_key_cache_witness :
    get_or_create_keys trivialProver [("a", (⟨[1]⟩, ⟨"vk1"⟩))] "a" [5] =
      ((⟨[1]⟩, ⟨"vk1"⟩), [("a", (⟨[1]⟩, ⟨"vk1"⟩))], false) :=
  (C8_key_cache trivialProver [("a", (⟨[1]⟩, ⟨"vk1"⟩))] "a" [5] (by simp)).1
    (⟨[1]⟩, ⟨"vk1"⟩) rfl

/-- C9 — confirmed: the compute module's entry point is deterministic and
side-effect-free — two executions on equal inputs, in arbitrary (and
arbitrarily different) ambient environments of clock, randomness and I/O,
produce the same result, and hence byte-identical committed outputs under
any serialization of the result.  The embedded `pricing.handle`,
`booking.handle` and `handle_call` are total pure functions of the input
alone (the crate is `no_std`, with no I/O, clock or randomness
primitives). -/
theorem C9_determinism (env₁ env₂ : ExecEnv) (call : RpcCall)
    (ser : RpcResult → List Nat) :
    run_handle_call env₁ call = run_handle_call env₂ call ∧
    ser (run_handle_call env₁ call) = ser (run_handle_call env₂ call) :=
  ⟨rfl, rfl⟩

/-- A byte-sized number survives the `as_u64` / `as u8` step. -/
theorem as_u64_byte (x : Nat) (hx : x < 256) :
    as_u8_of (Json.num (x : Int)) = some x := by
  have h0 : (0 : Int) ≤ (x : Int) := Int.natCast_nonneg x
  have h1 : (x : Int) < 2 ^ 64 := by omega
  simp [as_u8_of, Json.as_u64, h0, h1]
  omega

/-- The element-wise round trip, in `List.filterMap` form. -/
theorem filterMap_byte_roundtrip (b : List Nat) (h : ∀ x ∈ b, x < 256) :
    (b.map fun x : Nat => Json.num (x : Int)).filterMap as_u8_of = b := by
  induction b with
  | nil => rfl
  | cons x xs ih =>
    have hx : x < 256 := h x (List.mem_cons_self x xs)
    have hxs : ∀ y ∈ xs, y < 256 := fun y hy => h y (List.mem_cons_of_mem x hy)
    rw [List.map_cons]
    rw [List.filterMap_cons]
    rw [as_u64_byte x hx]
    rw [ih hxs]

/-- C10 — confirmed: converting a byte vector (entries `< 256`) to the
JSON-array wire format and back recovers it exactly. -/
theorem C10_json_roundtrip (b : List Nat) (h : ∀ x ∈ b, x < 256) :
    json_array_to_bytes (bytes_to_json_array b) = some b := by
  show some ((b.map fun x : Nat => Json.num (x : Int)).filterMap as_u8_of) = some b
  rw [filterMap_byte_roundtrip b h]

/-- C10 — witness for `C10_json_roundtrip` on the byte vector
`[0, 17, 255]`. -/
theorem C10_json_roundtrip_witness :
    json_array_to_bytes (bytes_to_json_array [0, 17, 255]) = some [0, 17, 255] :=
  C10_json_roundtrip [0, 17, 255] (by decide)
